import Mathlib

/-!
Shallow embedding of pqube.py, a reader for PQube power-quality meters
reached over Modbus TCP. The external read primitive is modelled as a
function from register address and register count to an optional list of
16-bit values (none models a failed read). Every method that touches the
device is interpreted as a computation returning either a Python-style
error or a result, together with the ordered list of register reads it
issued.
-/

namespace PQubeModel

/-- Python runtime errors raised by the module or by operations it uses. -/
inductive PyErr where
  | valueError
  | attributeError
  | typeError
  | indexError

/-- A Python float value as it occurs in this module: either the initial
float nan sentinel assigned in the constructors, or the result of
utils.decode_ieee, identified by its 32-bit pattern. -/
inductive PyVal where
  | nan
  | f32 (bits : Nat)

/-- One cell of a logged row: either a Python float value or the empty
string the source uses as the blank marker. -/
inductive Cell where
  | v (x : PyVal)
  | blank

/-- The external Modbus read primitive: register address and register
count to an optional list of 16-bit values; none models a failed read. -/
abbrev Env := Nat → Nat → Option (List Nat)

/-- Result of running a method against a device: the Python result or a
raised error, together with the register reads issued, in order, as
(address, count) pairs. -/
structure Trace (α : Type) where
  res : Except PyErr α
  reads : List (Nat × Nat)

def tracePure {α : Type} (a : α) : Trace α := ⟨.ok a, []⟩

def traceBind {α β : Type} (x : Trace α) (f : α → Trace β) : Trace β :=
  match x.res with
  | .error e => ⟨.error e, x.reads⟩
  | .ok a => ⟨(f a).res, x.reads ++ (f a).reads⟩

instance : Monad Trace where
  pure := tracePure
  bind := traceBind

/-- Embeds a pure Python expression that may raise into a Trace. -/
def liftE {α : Type} (r : Except PyErr α) : Trace α := ⟨r, []⟩

/-- A raise statement. -/
def raise {α : Type} (e : PyErr) : Trace α := ⟨.error e, []⟩

/-- ModbusClient.read_input_registers: logs the read and returns whatever
the device primitive gives back. -/
def read_input_registers (env : Env) (addr count : Nat) :
    Trace (Option (List Nat)) :=
  ⟨.ok (env addr count), [(addr, count)]⟩

/-- Python indexing expr[i] on an optional list of registers: indexing
None raises TypeError, an out-of-range index raises IndexError. -/
def pyIndex (o : Option (List Nat)) (i : Nat) : Except PyErr Nat :=
  match o with
  | none => .error .typeError
  | some l =>
    match l[i]? with
    | none => .error .indexError
    | some x => .ok x

/-- Python attribute access on an attribute that is only assigned on some
construction paths: a missing attribute raises AttributeError. -/
def getAttr {α : Type} (o : Option α) : Except PyErr α :=
  match o with
  | none => .error .attributeError
  | some a => .ok a

/-- Models pyModbusTCP.utils.word_list_to_long with big_endian set: each
consecutive pair of 16-bit words becomes one 32-bit word, first word
high; a trailing unpaired word is dropped. -/
def word_list_to_long : List Nat → List Nat
  | hi :: lo :: rest => ((hi <<< 16) + lo) :: word_list_to_long rest
  | _ => []

/-- Models pyModbusTCP.utils.decode_ieee: the 32-bit word is reinterpreted
as an IEEE-754 binary32 float, which the embedding identifies by its bit
pattern. -/
def decode_ieee (w : Nat) : PyVal := .f32 w

/-- convert_to_long from the source. A failed read hands None to
word_list_to_long, where len(None) raises TypeError; a list shorter than
two registers yields an empty long list and indexing it raises
IndexError. -/
def convert_to_long (input : Option (List Nat)) : Except PyErr PyVal :=
  match input with
  | none => .error .typeError
  | some l =>
    match word_list_to_long l with
    | [] => .error .indexError
    | w :: _ => .ok (decode_ieee w)

/-- Modelled from the spec: the real number denoted by an IEEE-754
binary32 bit pattern (1 sign bit, 8 exponent bits, 23 mantissa bits),
none for the infinity and NaN patterns. Used only to state what the bit
pattern produced by the decoder denotes. -/
def binary32Val (w : Nat) : Option ℚ :=
  let s : Nat := w / 2 ^ 31 % 2
  let e : Nat := w / 2 ^ 23 % 2 ^ 8
  let m : Nat := w % 2 ^ 23
  if e = 255 then none
  else
    let mag : ℚ :=
      if e = 0 then (m : ℚ) / 2 ^ 23 * (2 : ℚ) ^ (-126 : Int)
      else (1 + (m : ℚ) / 2 ^ 23) * (2 : ℚ) ^ ((e : Int) - 127)
    some (if s = 1 then -mag else mag)

/-- One private meas method body: a 2-register read at the given address
followed by convert_to_long, as in every private method of LinePQube. -/
def convertRead (env : Env) (addr : Nat) : Trace PyVal := do
  let r ← read_input_registers env addr 2
  liftE (convert_to_long r)

/-- LinePQube: one line-to-neutral entity with its eleven measurement
fields and eleven register addresses. Field names keep the spelling of
the source, including its misspelt v_angle_funamental and
i_mag_funamental attributes, which the source uses consistently. -/
structure LinePQube where
  v_rms : PyVal
  v_mag_fundamental : PyVal
  v_angle_funamental : PyVal
  i_rms : PyVal
  i_mag_funamental : PyVal
  i_angle_fundamental : PyVal
  apparent_power : PyVal
  real_power : PyVal
  reactive_power : PyVal
  v_thd : PyVal
  i_tdd : PyVal
  v_rms_register_id : Nat
  v_mag_fundamental_register_id : Nat
  v_angle_fundamental_register_id : Nat
  i_rms_register_id : Nat
  i_mag_fundamental_register_id : Nat
  i_angle_fundamental_register_id : Nat
  s_register_id : Nat
  p_register_id : Nat
  q_register_id : Nat
  v_thd_register_id : Nat
  i_tdd_register_id : Nat

/-- LinePQube.__init__: all measurement fields start as float nan; the
register ids are taken in the order of the keyword parameters of the
source constructor. -/
def LinePQube.init (v_rms_id v_mag_id v_angle_id i_rms_id i_mag_id
    i_angle_id s_id p_id q_id v_thd_id i_tdd_id : Nat) : LinePQube where
  v_rms := .nan
  v_mag_fundamental := .nan
  v_angle_funamental := .nan
  i_rms := .nan
  i_mag_funamental := .nan
  i_angle_fundamental := .nan
  apparent_power := .nan
  real_power := .nan
  reactive_power := .nan
  v_thd := .nan
  i_tdd := .nan
  v_rms_register_id := v_rms_id
  v_mag_fundamental_register_id := v_mag_id
  v_angle_fundamental_register_id := v_angle_id
  i_rms_register_id := i_rms_id
  i_mag_fundamental_register_id := i_mag_id
  i_angle_fundamental_register_id := i_angle_id
  s_register_id := s_id
  p_register_id := p_id
  q_register_id := q_id
  v_thd_register_id := v_thd_id
  i_tdd_register_id := i_tdd_id

/-- LinePQube.update_line_measurements: one 2-register read and decode per
quantity, assigned in the order of the source. -/
def LinePQube.update_line_measurements (env : Env) (l : LinePQube) :
    Trace LinePQube := do
  let a1 ← convertRead env l.v_rms_register_id
  let a2 ← convertRead env l.v_mag_fundamental_register_id
  let a3 ← convertRead env l.v_angle_fundamental_register_id
  let a4 ← convertRead env l.i_rms_register_id
  let a5 ← convertRead env l.i_mag_fundamental_register_id
  let a6 ← convertRead env l.i_angle_fundamental_register_id
  let a7 ← convertRead env l.s_register_id
  let a8 ← convertRead env l.p_register_id
  let a9 ← convertRead env l.q_register_id
  let a10 ← convertRead env l.v_thd_register_id
  let a11 ← convertRead env l.i_tdd_register_id
  pure { l with v_rms := a1, v_mag_fundamental := a2,
                v_angle_funamental := a3, i_rms := a4,
                i_mag_funamental := a5, i_angle_fundamental := a6,
                apparent_power := a7, real_power := a8,
                reactive_power := a9, v_thd := a10, i_tdd := a11 }

/-- The eleven row cells a LinePQube contributes, in the order the source
lists its attributes in every unbugged log branch. -/
def lineCells (l : LinePQube) : List Cell :=
  [.v l.v_rms, .v l.v_mag_fundamental, .v l.v_angle_funamental,
   .v l.i_rms, .v l.i_mag_funamental, .v l.i_angle_fundamental,
   .v l.apparent_power, .v l.real_power, .v l.reactive_power,
   .v l.v_thd, .v l.i_tdd]

/-- LToLPQube: one line-to-line entity, v_rms only. -/
structure LToLPQube where
  v_rms : PyVal
  v_rms_register_id : Nat

/-- LToLPQube.__init__. -/
def LToLPQube.init (v_rms_id : Nat) : LToLPQube :=
  ⟨.nan, v_rms_id⟩

/-- LToLPQube.update_line_measurements. -/
def LToLPQube.update_line_measurements (env : Env) (l : LToLPQube) :
    Trace LToLPQube := do
  let a ← convertRead env l.v_rms_register_id
  pure { l with v_rms := a }

/-- PQubeSplit1p device state: the line objects exist only when the
matching meas flag was set at construction, and the freq attribute is
only assigned when at least one line is measured. -/
structure PQubeSplit1p where
  meas_line1 : Bool
  meas_line2 : Bool
  line1 : Option LinePQube
  line2 : Option LinePQube
  freq : Option PyVal

namespace PQubeSplit1p

def REG_POWER_CONFIG : Nat := 8022
def REG_FREQ : Nat := 7026
def REG_V_RMS_L1 : Nat := 7008
def REG_V_MAG_FUNDAMENTAL_L1 : Nat := 7098
def REG_V_ANGLE_FUNDAMENTAL_L1 : Nat := 7100
def REG_V_RMS_L2 : Nat := 7010
def REG_V_MAG_FUNDAMENTAL_L2 : Nat := 7102
def REG_V_ANGLE_FUNDAMENTAL_L2 : Nat := 7104
def REG_I_RMS_L1 : Nat := 7028
def REG_I_MAG_FUNDAMENTAL_L1 : Nat := 7110
def REG_I_ANGLE_FUNDAMENTAL_L1 : Nat := 7112
def REG_I_RMS_L2 : Nat := 7030
def REG_I_MAG_FUNDAMENTAL_L2 : Nat := 7114
def REG_I_ANGLE_FUNDAMENTAL_L2 : Nat := 7116
def REG_V_THD_L1 : Nat := 7192
def REG_V_THD_L2 : Nat := 7194
def REG_I_TDD_L1 : Nat := 7198
def REG_I_TDD_L2 : Nat := 7200
def REG_WATT_L1 : Nat := 7204
def REG_WATT_L2 : Nat := 7206
def REG_VA_L1 : Nat := 7210
def REG_VA_L2 : Nat := 7212
def REG_VAR_FUNDAMENTAL_L1 : Nat := 7216
def REG_VAR_FUNDAMENTAL_L2 : Nat := 7218

/-- PQubeSplit1p.__init__: reads the power-configuration register with the
default count of one register and raises AttributeError unless its first
value is 2; only then builds the selected line objects. -/
def init (env : Env) (meas_line1 meas_line2 : Bool) : Trace PQubeSplit1p := do
  let r ← read_input_registers env REG_POWER_CONFIG 1
  let v ← liftE (pyIndex r 0)
  if v ≠ 2 then raise .attributeError
  else
    pure { meas_line1, meas_line2,
           line1 := if meas_line1 then
               some (LinePQube.init REG_V_RMS_L1 REG_V_MAG_FUNDAMENTAL_L1
                 REG_V_ANGLE_FUNDAMENTAL_L1 REG_I_RMS_L1
                 REG_I_MAG_FUNDAMENTAL_L1 REG_I_ANGLE_FUNDAMENTAL_L1
                 REG_VA_L1 REG_WATT_L1 REG_VAR_FUNDAMENTAL_L1
                 REG_V_THD_L1 REG_I_TDD_L1)
             else none,
           line2 := if meas_line2 then
               some (LinePQube.init REG_V_RMS_L2 REG_V_MAG_FUNDAMENTAL_L2
                 REG_V_ANGLE_FUNDAMENTAL_L2 REG_I_RMS_L2
                 REG_I_MAG_FUNDAMENTAL_L2 REG_I_ANGLE_FUNDAMENTAL_L2
                 REG_VA_L2 REG_WATT_L2 REG_VAR_FUNDAMENTAL_L2
                 REG_V_THD_L2 REG_I_TDD_L2)
             else none,
           freq := if meas_line1 || meas_line2 then some PyVal.nan else none }

/-- PQubeSplit1p.meas_freq: a READ_2_REG read of the frequency register. -/
def meas_freq (env : Env) : Trace PyVal :=
  convertRead env REG_FREQ

/-- PQubeSplit1p.update_measurements: for each selected line, read the
frequency and then that line, in source order. -/
def update_measurements (env : Env) (s : PQubeSplit1p) :
    Trace PQubeSplit1p :=
  (if s.meas_line1 then do
      let f ← meas_freq env
      let l1 ← liftE (getAttr s.line1)
      let l1u ← LinePQube.update_line_measurements env l1
      pure { s with freq := some f, line1 := some l1u }
    else pure s) >>= fun s1 =>
  if s1.meas_line2 then do
    let f ← meas_freq env
    let l2 ← liftE (getAttr s1.line2)
    let l2u ← LinePQube.update_line_measurements env l2
    pure { s1 with freq := some f, line2 := some l2u }
  else pure s1

/-- PQubeSplit1p.pqube_phase_log. In the branch where only line 2 is
measured, the source assigns values = self.freq, a float, and then calls
values.extend, so Python raises AttributeError there. -/
def pqube_phase_log (env : Env) (s0 : PQubeSplit1p) : Trace (List Cell) := do
  let s ← update_measurements env s0
  if s.meas_line1 && s.meas_line2 then do
    let f ← liftE (getAttr s.freq)
    let l1 ← liftE (getAttr s.line1)
    let l2 ← liftE (getAttr s.line2)
    pure (Cell.v f :: (lineCells l1 ++ lineCells l2))
  else if s.meas_line1 then do
    let f ← liftE (getAttr s.freq)
    let l1 ← liftE (getAttr s.line1)
    pure (Cell.v f :: (lineCells l1 ++ List.replicate 11 Cell.blank))
  else if s.meas_line2 then do
    let _ ← liftE (getAttr s.freq)
    raise .attributeError
  else
    pure (List.replicate 23 Cell.blank)

end PQubeSplit1p

/-- PQube3pDelta device state. -/
structure PQube3pDelta where
  meas_line1_line2 : Bool
  meas_line2_line3 : Bool
  meas_line3_line1 : Bool
  line1_line2 : Option LToLPQube
  line2_line3 : Option LToLPQube
  line3_line1 : Option LToLPQube

namespace PQube3pDelta

def REG_POWER_CONFIG : Nat := 8022
def REG_V_L1_L2 : Nat := 7014
def REG_V_L2_L3 : Nat := 7016
def REG_V_L3_L1 : Nat := 7018

/-- PQube3pDelta.__init__: power-configuration register must read 4. -/
def init (env : Env) (meas_line1_line2 meas_line2_line3
    meas_line3_line1 : Bool) : Trace PQube3pDelta := do
  let r ← read_input_registers env REG_POWER_CONFIG 1
  let v ← liftE (pyIndex r 0)
  if v ≠ 4 then raise .attributeError
  else
    pure { meas_line1_line2, meas_line2_line3, meas_line3_line1,
           line1_line2 := if meas_line1_line2 then
               some (LToLPQube.init REG_V_L1_L2) else none,
           line2_line3 := if meas_line2_line3 then
               some (LToLPQube.init REG_V_L2_L3) else none,
           line3_line1 := if meas_line3_line1 then
               some (LToLPQube.init REG_V_L3_L1) else none }

/-- PQube3pDelta.update_measurements. -/
def update_measurements (env : Env) (s : PQube3pDelta) :
    Trace PQube3pDelta :=
  (if s.meas_line1_line2 then do
      let l ← liftE (getAttr s.line1_line2)
      let lu ← LToLPQube.update_line_measurements env l
      pure { s with line1_line2 := some lu }
    else pure s) >>= fun s1 =>
  (if s1.meas_line2_line3 then do
      let l ← liftE (getAttr s1.line2_line3)
      let lu ← LToLPQube.update_line_measurements env l
      pure { s1 with line2_line3 := some lu }
    else pure s1) >>= fun s2 =>
  if s2.meas_line3_line1 then do
    let l ← liftE (getAttr s2.line3_line1)
    let lu ← LToLPQube.update_line_measurements env l
    pure { s2 with line3_line1 := some lu }
  else pure s2

/-- PQube3pDelta.pqube_phase_log: the eight branches of the source. -/
def pqube_phase_log (env : Env) (s0 : PQube3pDelta) : Trace (List Cell) := do
  let s ← update_measurements env s0
  if s.meas_line1_line2 && s.meas_line2_line3 && s.meas_line3_line1 then do
    let l12 ← liftE (getAttr s.line1_line2)
    let l23 ← liftE (getAttr s.line2_line3)
    let l31 ← liftE (getAttr s.line3_line1)
    pure [Cell.v l12.v_rms, Cell.v l23.v_rms, Cell.v l31.v_rms]
  else if s.meas_line1_line2 && s.meas_line2_line3 then do
    let l12 ← liftE (getAttr s.line1_line2)
    let l23 ← liftE (getAttr s.line2_line3)
    pure [Cell.v l12.v_rms, Cell.v l23.v_rms, Cell.blank]
  else if s.meas_line2_line3 && s.meas_line3_line1 then do
    let l23 ← liftE (getAttr s.line2_line3)
    let l31 ← liftE (getAttr s.line3_line1)
    pure [Cell.blank, Cell.v l23.v_rms, Cell.v l31.v_rms]
  else if s.meas_line1_line2 && s.meas_line3_line1 then do
    let l12 ← liftE (getAttr s.line1_line2)
    let l31 ← liftE (getAttr s.line3_line1)
    pure [Cell.v l12.v_rms, Cell.blank, Cell.v l31.v_rms]
  else if s.meas_line1_line2 then do
    let l12 ← liftE (getAttr s.line1_line2)
    pure [Cell.v l12.v_rms, Cell.blank, Cell.blank]
  else if s.meas_line2_line3 then do
    let l23 ← liftE (getAttr s.line2_line3)
    pure [Cell.blank, Cell.v l23.v_rms, Cell.blank]
  else if s.meas_line3_line1 then do
    let l31 ← liftE (getAttr s.line3_line1)
    pure [Cell.blank, Cell.blank, Cell.v l31.v_rms]
  else
    pure (List.replicate 3 Cell.blank)

end PQube3pDelta

/-- PQube1pLL device state. -/
structure PQube1pLL where
  meas_line1_line2 : Bool
  line1_line2 : Option LToLPQube

namespace PQube1pLL

def REG_POWER_CONFIG : Nat := 8022
def REG_V_L1_L2 : Nat := 7014

/-- PQube1pLL.__init__: power-configuration register must read 1. -/
def init (env : Env) (meas_line1_line2 : Bool) : Trace PQube1pLL := do
  let r ← read_input_registers env REG_POWER_CONFIG 1
  let v ← liftE (pyIndex r 0)
  if v ≠ 1 then raise .attributeError
  else
    pure { meas_line1_line2,
           line1_line2 := if meas_line1_line2 then
               some (LToLPQube.init REG_V_L1_L2) else none }

/-- PQube1pLL.update_measurements. -/
def update_measurements (env : Env) (s : PQube1pLL) : Trace PQube1pLL := do
  if s.meas_line1_line2 then do
    let l ← liftE (getAttr s.line1_line2)
    let lu ← LToLPQube.update_line_measurements env l
    pure { s with line1_line2 := some lu }
  else pure s

/-- PQube1pLL.pqube_phase_log. -/
def pqube_phase_log (env : Env) (s0 : PQube1pLL) : Trace (List Cell) := do
  let s ← update_measurements env s0
  if s.meas_line1_line2 then do
    let l12 ← liftE (getAttr s.line1_line2)
    pure [Cell.v l12.v_rms]
  else
    pure [Cell.blank]

end PQube1pLL

/-- PQube3pWye device state: freq is not assigned by the constructor and
only appears once update_measurements has run. -/
structure PQube3pWye where
  meas_line1 : Bool
  meas_line2 : Bool
  meas_line3 : Bool
  line1 : Option LinePQube
  line2 : Option LinePQube
  line3 : Option LinePQube
  freq : Option PyVal

namespace PQube3pWye

def REG_POWER_CONFIG : Nat := 8022
def REG_FREQ : Nat := 7026
def REG_V_RMS : List Nat := [7008, 7010, 7012]
def REG_V_MAG_FUNDAMENTAL : List Nat := [7098, 7102, 7106]
def REG_V_ANGLE_FUNDAMENTAL : List Nat := [7100, 7104, 7108]
def REG_I_RMS : List Nat := [7028, 7030, 7032]
def REG_I_MAG_FUNDAMENTAL : List Nat := [7110, 7114, 7118]
def REG_I_ANGLE_FUNDAMENTAL : List Nat := [7112, 7116, 7120]
def REG_V_THD : List Nat := [7192, 7194, 7196]
def REG_I_TDD : List Nat := [7198, 7200, 7202]
def REG_WATT : List Nat := [7204, 7206, 7208]
def REG_VA : List Nat := [7210, 7212, 7214]
def REG_VAR_FUNDAMENTAL : List Nat := [7216, 7218, 7220]

/-- PQube3pWye.__init__: power-configuration register must read 3. The
line 3 object is built with p_register_id taken from REG_WATT index 0,
exactly as the source does; every other line 3 address uses index 2. -/
def init (env : Env) (meas_line1 meas_line2 meas_line3 : Bool) :
    Trace PQube3pWye := do
  let r ← read_input_registers env REG_POWER_CONFIG 1
  let v ← liftE (pyIndex r 0)
  if v ≠ 3 then raise .attributeError
  else
    pure { meas_line1, meas_line2, meas_line3,
           line1 := if meas_line1 then
               some (LinePQube.init (REG_V_RMS.getD 0 0)
                 (REG_V_MAG_FUNDAMENTAL.getD 0 0)
                 (REG_V_ANGLE_FUNDAMENTAL.getD 0 0)
                 (REG_I_RMS.getD 0 0) (REG_I_MAG_FUNDAMENTAL.getD 0 0)
                 (REG_I_ANGLE_FUNDAMENTAL.getD 0 0) (REG_VA.getD 0 0)
                 (REG_WATT.getD 0 0) (REG_VAR_FUNDAMENTAL.getD 0 0)
                 (REG_V_THD.getD 0 0) (REG_I_TDD.getD 0 0))
             else none,
           line2 := if meas_line2 then
               some (LinePQube.init (REG_V_RMS.getD 1 0)
                 (REG_V_MAG_FUNDAMENTAL.getD 1 0)
                 (REG_V_ANGLE_FUNDAMENTAL.getD 1 0)
                 (REG_I_RMS.getD 1 0) (REG_I_MAG_FUNDAMENTAL.getD 1 0)
                 (REG_I_ANGLE_FUNDAMENTAL.getD 1 0) (REG_VA.getD 1 0)
                 (REG_WATT.getD 1 0) (REG_VAR_FUNDAMENTAL.getD 1 0)
                 (REG_V_THD.getD 1 0) (REG_I_TDD.getD 1 0))
             else none,
           line3 := if meas_line3 then
               some (LinePQube.init (REG_V_RMS.getD 2 0)
                 (REG_V_MAG_FUNDAMENTAL.getD 2 0)
                 (REG_V_ANGLE_FUNDAMENTAL.getD 2 0)
                 (REG_I_RMS.getD 2 0) (REG_I_MAG_FUNDAMENTAL.getD 2 0)
                 (REG_I_ANGLE_FUNDAMENTAL.getD 2 0) (REG_VA.getD 2 0)
                 (REG_WATT.getD 0 0) (REG_VAR_FUNDAMENTAL.getD 2 0)
                 (REG_V_THD.getD 2 0) (REG_I_TDD.getD 2 0))
             else none,
           freq := none }

/-- PQube3pWye.meas_freq. -/
def meas_freq (env : Env) : Trace PyVal :=
  convertRead env REG_FREQ

/-- PQube3pWye.update_measurements: the frequency is read and stored
unconditionally, then each selected line is updated. -/
def update_measurements (env : Env) (w : PQube3pWye) : Trace PQube3pWye :=
  meas_freq env >>= fun f =>
  let w1 := { w with freq := some f }
  (if w1.meas_line1 then do
      let l ← liftE (getAttr w1.line1)
      let lu ← LinePQube.update_line_measurements env l
      pure { w1 with line1 := some lu }
    else pure w1) >>= fun w2 =>
  (if w2.meas_line2 then do
      let l ← liftE (getAttr w2.line2)
      let lu ← LinePQube.update_line_measurements env l
      pure { w2 with line2 := some lu }
    else pure w2) >>= fun w3 =>
  if w3.meas_line3 then do
    let l ← liftE (getAttr w3.line3)
    let lu ← LinePQube.update_line_measurements env l
    pure { w3 with line3 := some lu }
  else pure w3

/-- PQube3pWye.pqube_phase_log. The line 3 block of the source takes its
real_power and v_thd cells from self.line2 rather than self.line3, so it
also touches the line2 attribute; with no line selected the assembled
list is replaced by 34 blanks. -/
def pqube_phase_log (env : Env) (w0 : PQube3pWye) : Trace (List Cell) :=
  update_measurements env w0 >>= fun w =>
  liftE (getAttr w.freq) >>= fun f =>
  (if w.meas_line1 then do
      let l1 ← liftE (getAttr w.line1)
      pure (lineCells l1)
    else pure (List.replicate 11 Cell.blank)) >>= fun cells1 =>
  (if w.meas_line2 then do
      let l2 ← liftE (getAttr w.line2)
      pure (lineCells l2)
    else pure (List.replicate 11 Cell.blank)) >>= fun cells2 =>
  (if w.meas_line3 then do
      let l3 ← liftE (getAttr w.line3)
      let l2 ← liftE (getAttr w.line2)
      pure [Cell.v l3.v_rms, Cell.v l3.v_mag_fundamental,
            Cell.v l3.v_angle_funamental, Cell.v l3.i_rms,
            Cell.v l3.i_mag_funamental, Cell.v l3.i_angle_fundamental,
            Cell.v l3.apparent_power, Cell.v l2.real_power,
            Cell.v l3.reactive_power, Cell.v l2.v_thd, Cell.v l3.i_tdd]
    else pure (List.replicate 11 Cell.blank)) >>= fun cells3 =>
  if !w.meas_line1 && !w.meas_line2 && !w.meas_line3 then
    pure (List.replicate 34 Cell.blank)
  else
    pure (Cell.v f :: (cells1 ++ cells2 ++ cells3))

end PQube3pWye

/-- The measurements attribute of the top-level PQube object. -/
inductive Measurements where
  | split (s : PQubeSplit1p)
  | delta (d : PQube3pDelta)
  | wye (w : PQube3pWye)
  | onePhase (p : PQube1pLL)

/-- The top-level PQube object. -/
structure PQube where
  power_config : String
  measurements : Measurements

/-- PQube.__init__: validates the line flags against the requested
power_config, raising ValueError before any measurements object is
constructed; an unrecognised power_config also raises ValueError. -/
def PQube.init (env : Env) (power_config : String)
    (meas_line1 meas_line2 meas_line3 meas_line1_line2
     meas_line2_line3 meas_line3_line1 : Bool) : Trace PQube := do
  if power_config = "split_single_phase" then
    if meas_line1_line2 || meas_line2_line3 || meas_line3_line1 || meas_line3
    then raise .valueError
    else do
      let m ← PQubeSplit1p.init env meas_line1 meas_line2
      pure ⟨power_config, .split m⟩
  else if power_config = "3p_delta" then
    if meas_line1 || meas_line2 || meas_line3 then raise .valueError
    else do
      let m ← PQube3pDelta.init env meas_line1_line2 meas_line2_line3
          meas_line3_line1
      pure ⟨power_config, .delta m⟩
  else if power_config = "3p_wye" then
    if meas_line1_line2 || meas_line2_line3 || meas_line3_line1
    then raise .valueError
    else do
      let m ← PQube3pWye.init env meas_line1 meas_line2 meas_line3
      pure ⟨power_config, .wye m⟩
  else if power_config = "single_phase_l1_l2" then
    if meas_line1 || meas_line2 || meas_line3 || meas_line2_line3 ||
        meas_line3_line1
    then raise .valueError
    else do
      let m ← PQube1pLL.init env meas_line1_line2
      pure ⟨power_config, .onePhase m⟩
  else raise .valueError

/-- Dispatch of pqube_phase_log over the measurements object. -/
def Measurements.phase_log (env : Env) : Measurements → Trace (List Cell)
  | .split s => PQubeSplit1p.pqube_phase_log env s
  | .delta d => PQube3pDelta.pqube_phase_log env d
  | .wye w => PQube3pWye.pqube_phase_log env w
  | .onePhase p => PQube1pLL.pqube_phase_log env p

/-- PQube.pqube_log. -/
def PQube.pqube_log (env : Env) (p : PQube) : Trace (List Cell) :=
  Measurements.phase_log env p.measurements

/-- The four power configurations, as named by the spec. -/
inductive PowerConfig where
  | splitSinglePhase
  | threePhaseDelta
  | threePhaseWye
  | singlePhaseL1L2

/-- The power_config string each configuration is requested with. -/
def PowerConfig.configString : PowerConfig → String
  | .splitSinglePhase => "split_single_phase"
  | .threePhaseDelta => "3p_delta"
  | .threePhaseWye => "3p_wye"
  | .singlePhaseL1L2 => "single_phase_l1_l2"

/-- The code the power-configuration register 8022 must report for each
configuration. -/
def PowerConfig.expectedCode : PowerConfig → Nat
  | .splitSinglePhase => 2
  | .threePhaseDelta => 4
  | .threePhaseWye => 3
  | .singlePhaseL1L2 => 1

/-- The six line-selection flags of the construction interface. -/
structure Flags where
  meas_line1 : Bool
  meas_line2 : Bool
  meas_line3 : Bool
  meas_line1_line2 : Bool
  meas_line2_line3 : Bool
  meas_line3_line1 : Bool

/-- Modelled from the spec validity table of section 4.1: a flag set has
an invalid flag for a configuration when some set flag is not among the
valid line flags of that configuration (SplitSinglePhase: L1, L2;
ThreePhaseDelta: the three pairs; ThreePhaseWye: L1, L2, L3;
SinglePhaseL1L2: L1L2 only). -/
def hasInvalidFlag (cfg : PowerConfig) (fl : Flags) : Bool :=
  match cfg with
  | .splitSinglePhase =>
      fl.meas_line1_line2 || fl.meas_line2_line3 || fl.meas_line3_line1 ||
        fl.meas_line3
  | .threePhaseDelta => fl.meas_line1 || fl.meas_line2 || fl.meas_line3
  | .threePhaseWye =>
      fl.meas_line1_line2 || fl.meas_line2_line3 || fl.meas_line3_line1
  | .singlePhaseL1L2 =>
      fl.meas_line1 || fl.meas_line2 || fl.meas_line3 ||
        fl.meas_line2_line3 || fl.meas_line3_line1

/-- The per-topology measurements constructor each branch of
PQube.__init__ invokes, with the flag fields it passes. -/
def PowerConfig.initMeasurements (cfg : PowerConfig) (env : Env)
    (fl : Flags) : Trace Measurements :=
  match cfg with
  | .splitSinglePhase =>
      PQubeSplit1p.init env fl.meas_line1 fl.meas_line2 >>= fun m =>
        pure (.split m)
  | .threePhaseDelta =>
      PQube3pDelta.init env fl.meas_line1_line2 fl.meas_line2_line3
          fl.meas_line3_line1 >>= fun m =>
        pure (.delta m)
  | .threePhaseWye =>
      PQube3pWye.init env fl.meas_line1 fl.meas_line2 fl.meas_line3 >>=
        fun m => pure (.wye m)
  | .singlePhaseL1L2 =>
      PQube1pLL.init env fl.meas_line1_line2 >>= fun m =>
        pure (.onePhase m)

/-- Whether an Except carries a result rather than a raised error. -/
def exceptIsOk {α : Type} : Except PyErr α → Bool
  | .ok _ => true
  | .error _ => false

/-- A read that returned at least the two registers a decode needs. -/
def GoodRead (env : Env) (p : Nat × Nat) : Prop :=
  ∃ l, env p.1 p.2 = some l ∧ 2 ≤ l.length

/-- A computation conforms when, whenever it produces a result, every
register read it issued returned at least two registers. -/
def Trace.Conforms {α : Type} (env : Env) (t : Trace α) : Prop :=
  (∃ a, t.res = Except.ok a) → ∀ p ∈ t.reads, GoodRead env p

/-- A healthy split-single-phase device: the power-configuration register
reports 2 and every other read returns the requested number of zero
registers. -/
def envSplit : Env := fun addr count =>
  if addr = 8022 then some [2] else some (List.replicate count 0)

/-- A healthy three-phase-wye device with zero readings. -/
def envWye : Env := fun addr count =>
  if addr = 8022 then some [3] else some (List.replicate count 0)

/-- A three-phase-wye device whose every measurement register pair decodes
to a value tagged with its own address, so that the row reveals which
register each cell came from. -/
def envWyeTagged : Env := fun addr _ =>
  if addr = 8022 then some [3] else some [addr, 0]

/-- A device that answers no read at all. -/
def envDead : Env := fun _ _ => none

/-- Construction and one log cycle for split single phase with only line 2
selected, against the healthy device. -/
def splitL2Run : Trace (List Cell) :=
  PQube.init envSplit "split_single_phase" false true false false false
      false >>= fun p =>
    PQube.pqube_log envSplit p

/-- Construction and one log cycle for three-phase wye with only line 3
selected, against the healthy device. -/
def wyeL3Run : Trace (List Cell) :=
  PQube3pWye.init envWye false false true >>= fun w =>
    PQube3pWye.pqube_phase_log envWye w

/-- Construction and one log cycle for three-phase wye with lines 2 and 3
selected, against the address-tagged device. -/
def wyeTaggedRun : Trace (List Cell) :=
  PQube3pWye.init envWyeTagged false true true >>= fun w =>
    PQube3pWye.pqube_phase_log envWyeTagged w

/-! Basic lemmas about the Trace interpretation. -/

theorem ok_bind {α β : Type} (a : α) (r : List (Nat × Nat))
    (f : α → Trace β) :
    (Trace.mk (Except.ok a) r >>= f) = ⟨(f a).res, r ++ (f a).reads⟩ := rfl

theorem error_bind {α β : Type} (e : PyErr) (r : List (Nat × Nat))
    (f : α → Trace β) :
    (Trace.mk (Except.error e) r >>= f) = ⟨Except.error e, r⟩ := rfl

theorem pure_def {α : Type} (a : α) :
    (pure a : Trace α) = ⟨Except.ok a, []⟩ := rfl

theorem bind_res_ok {α β : Type} {x : Trace α} {f : α → Trace β} {b : β}
    (h : (x >>= f).res = Except.ok b) :
    ∃ a, x.res = Except.ok a ∧ (f a).res = Except.ok b := by
  obtain ⟨xr, xreads⟩ := x
  cases xr with
  | error e => exact Except.noConfusion h
  | ok a => exact ⟨a, rfl, h⟩

theorem mem_reads_bind_left {α β : Type} {x : Trace α} (f : α → Trace β)
    {p : Nat × Nat} (h : p ∈ x.reads) : p ∈ (x >>= f).reads := by
  obtain ⟨xr, xreads⟩ := x
  cases xr with
  | error e => exact h
  | ok a => exact List.mem_append_left _ h

theorem reads_bind {α β : Type} (x : Trace α) (f : α → Trace β) :
    (x >>= f).reads = x.reads ++ (match x.res with
      | Except.ok a => (f a).reads
      | Except.error _ => []) := by
  obtain ⟨xr, xreads⟩ := x
  cases xr with
  | error e => simp [error_bind]
  | ok a => rfl

theorem convertRead_res (env : Env) (a : Nat) :
    (convertRead env a).res = convert_to_long (env a 2) := rfl

theorem convertRead_reads (env : Env) (a : Nat) :
    (convertRead env a).reads = [(a, 2)] := rfl

/-! A successful convert_to_long certifies that the read behind it
returned at least two registers; conformance lemmas lift this through
every method built from convertRead. -/

theorem convert_ok_length {o : Option (List Nat)} {val : PyVal}
    (h : convert_to_long o = Except.ok val) :
    ∃ l, o = some l ∧ 2 ≤ l.length := by
  cases o with
  | none => exact Except.noConfusion h
  | some l =>
    cases l with
    | nil => exact Except.noConfusion h
    | cons x t =>
      cases t with
      | nil => exact Except.noConfusion h
      | cons y t2 =>
        refine ⟨x :: y :: t2, rfl, ?_⟩
        simp only [List.length_cons]
        omega

theorem conforms_pure {α : Type} (env : Env) (a : α) :
    Trace.Conforms env (pure a : Trace α) := by
  intro _ p hp
  simp [pure_def] at hp

theorem conforms_liftE {α : Type} (env : Env) (r : Except PyErr α) :
    Trace.Conforms env (liftE r) := by
  intro _ p hp
  simp [liftE] at hp

theorem conforms_raise {α : Type} (env : Env) (e : PyErr) :
    Trace.Conforms env (raise e : Trace α) := by
  intro _ p hp
  simp [raise] at hp

theorem conforms_bind {α β : Type} {env : Env} {x : Trace α}
    {f : α → Trace β} (hx : Trace.Conforms env x)
    (hf : ∀ a, Trace.Conforms env (f a)) :
    Trace.Conforms env (x >>= f) := by
  rintro ⟨b, hb⟩ p hp
  obtain ⟨xr, xreads⟩ := x
  cases xr with
  | error e => exact Except.noConfusion hb
  | ok a =>
    rw [ok_bind] at hb hp
    rcases List.mem_append.mp hp with h1 | h2
    · exact hx ⟨a, rfl⟩ p h1
    · exact hf a ⟨b, hb⟩ p h2

theorem conforms_convertRead (env : Env) (a : Nat) :
    Trace.Conforms env (convertRead env a) := by
  rintro ⟨val, hv⟩ p hp
  rw [convertRead_res] at hv
  rw [convertRead_reads] at hp
  obtain ⟨l, hl, hlen⟩ := convert_ok_length hv
  have hpa : p = (a, 2) := by simpa using hp
  subst hpa
  exact ⟨l, hl, hlen⟩

theorem conforms_update_line (env : Env) (l : LinePQube) :
    Trace.Conforms env (LinePQube.update_line_measurements env l) := by
  unfold LinePQube.update_line_measurements
  refine conforms_bind (conforms_convertRead env _) fun a1 => ?_
  refine conforms_bind (conforms_convertRead env _) fun a2 => ?_
  refine conforms_bind (conforms_convertRead env _) fun a3 => ?_
  refine conforms_bind (conforms_convertRead env _) fun a4 => ?_
  refine conforms_bind (conforms_convertRead env _) fun a5 => ?_
  refine conforms_bind (conforms_convertRead env _) fun a6 => ?_
  refine conforms_bind (conforms_convertRead env _) fun a7 => ?_
  refine conforms_bind (conforms_convertRead env _) fun a8 => ?_
  refine conforms_bind (conforms_convertRead env _) fun a9 => ?_
  refine conforms_bind (conforms_convertRead env _) fun a10 => ?_
  refine conforms_bind (conforms_convertRead env _) fun a11 => ?_
  exact conforms_pure env _

theorem conforms_update_ltol (env : Env) (l : LToLPQube) :
    Trace.Conforms env (LToLPQube.update_line_measurements env l) := by
  unfold LToLPQube.update_line_measurements
  refine conforms_bind (conforms_convertRead env _) fun a => ?_
  exact conforms_pure env _

theorem conforms_split_update (env : Env) (s : PQubeSplit1p) :
    Trace.Conforms env (PQubeSplit1p.update_measurements env s) := by
  unfold PQubeSplit1p.update_measurements
  refine conforms_bind ?_ fun s1 => ?_
  · split
    · refine conforms_bind (conforms_convertRead env _) fun f => ?_
      refine conforms_bind (conforms_liftE env _) fun l1 => ?_
      refine conforms_bind (conforms_update_line env _) fun l1u => ?_
      exact conforms_pure env _
    · exact conforms_pure env _
  · split
    · refine conforms_bind (conforms_convertRead env _) fun f => ?_
      refine conforms_bind (conforms_liftE env _) fun l2 => ?_
      refine conforms_bind (conforms_update_line env _) fun l2u => ?_
      exact conforms_pure env _
    · exact conforms_pure env _

theorem conforms_split_phase_log (env : Env) (s : PQubeSplit1p) :
    Trace.Conforms env (PQubeSplit1p.pqube_phase_log env s) := by
  unfold PQubeSplit1p.pqube_phase_log
  refine conforms_bind (conforms_split_update env s) fun s1 => ?_
  split
  · refine conforms_bind (conforms_liftE env _) fun f => ?_
    refine conforms_bind (conforms_liftE env _) fun l1 => ?_
    refine conforms_bind (conforms_liftE env _) fun l2 => ?_
    exact conforms_pure env _
  · split
    · refine conforms_bind (conforms_liftE env _) fun f => ?_
      refine conforms_bind (conforms_liftE env _) fun l1 => ?_
      exact conforms_pure env _
    · split
      · refine conforms_bind (conforms_liftE env _) fun f => ?_
        exact conforms_raise env _
      · exact conforms_pure env _

theorem conforms_delta_update (env : Env) (s : PQube3pDelta) :
    Trace.Conforms env (PQube3pDelta.update_measurements env s) := by
  unfold PQube3pDelta.update_measurements
  refine conforms_bind ?_ fun s1 => ?_
  · split
    · refine conforms_bind (conforms_liftE env _) fun l => ?_
      refine conforms_bind (conforms_update_ltol env _) fun lu => ?_
      exact conforms_pure env _
    · exact conforms_pure env _
  · refine conforms_bind ?_ fun s2 => ?_
    · split
      · refine conforms_bind (conforms_liftE env _) fun l => ?_
        refine conforms_bind (conforms_update_ltol env _) fun lu => ?_
        exact conforms_pure env _
      · exact conforms_pure env _
    · split
      · refine conforms_bind (conforms_liftE env _) fun l => ?_
        refine conforms_bind (conforms_update_ltol env _) fun lu => ?_
        exact conforms_pure env _
      · exact conforms_pure env _

theorem conforms_delta_phase_log (env : Env) (s : PQube3pDelta) :
    Trace.Conforms env (PQube3pDelta.pqube_phase_log env s) := by
  unfold PQube3pDelta.pqube_phase_log
  refine conforms_bind (conforms_delta_update env s) fun s1 => ?_
  split
  · refine conforms_bind (conforms_liftE env _) fun l12 => ?_
    refine conforms_bind (conforms_liftE env _) fun l23 => ?_
    refine conforms_bind (conforms_liftE env _) fun l31 => ?_
    exact conforms_pure env _
  · split
    · refine conforms_bind (conforms_liftE env _) fun l12 => ?_
      refine conforms_bind (conforms_liftE env _) fun l23 => ?_
      exact conforms_pure env _
    · split
      · refine conforms_bind (conforms_liftE env _) fun l23 => ?_
        refine conforms_bind (conforms_liftE env _) fun l31 => ?_
        exact conforms_pure env _
      · split
        · refine conforms_bind (conforms_liftE env _) fun l12 => ?_
          refine conforms_bind (conforms_liftE env _) fun l31 => ?_
          exact conforms_pure env _
        · split
          · refine conforms_bind (conforms_liftE env _) fun l12 => ?_
            exact conforms_pure env _
          · split
            · refine conforms_bind (conforms_liftE env _) fun l23 => ?_
              exact conforms_pure env _
            · split
              · refine conforms_bind (conforms_liftE env _) fun l31 => ?_
                exact conforms_pure env _
              · exact conforms_pure env _

theorem conforms_onep_update (env : Env) (s : PQube1pLL) :
    Trace.Conforms env (PQube1pLL.update_measurements env s) := by
  unfold PQube1pLL.update_measurements
  split
  · refine conforms_bind (conforms_liftE env _) fun l => ?_
    refine conforms_bind (conforms_update_ltol env _) fun lu => ?_
    exact conforms_pure env _
  · exact conforms_pure env _

theorem conforms_onep_phase_log (env : Env) (s : PQube1pLL) :
    Trace.Conforms env (PQube1pLL.pqube_phase_log env s) := by
  unfold PQube1pLL.pqube_phase_log
  refine conforms_bind (conforms_onep_update env s) fun s1 => ?_
  split
  · refine conforms_bind (conforms_liftE env _) fun l12 => ?_
    exact conforms_pure env _
  · exact conforms_pure env _

theorem conforms_wye_update (env : Env) (w : PQube3pWye) :
    Trace.Conforms env (PQube3pWye.update_measurements env w) := by
  unfold PQube3pWye.update_measurements
  refine conforms_bind (conforms_convertRead env _) fun f => ?_
  refine conforms_bind ?_ fun w2 => ?_
  · split
    · refine conforms_bind (conforms_liftE env _) fun l => ?_
      refine conforms_bind (conforms_update_line env _) fun lu => ?_
      exact conforms_pure env _
    · exact conforms_pure env _
  · refine conforms_bind ?_ fun w3 => ?_
    · split
      · refine conforms_bind (conforms_liftE env _) fun l => ?_
        refine conforms_bind (conforms_update_line env _) fun lu => ?_
        exact conforms_pure env _
      · exact conforms_pure env _
    · split
      · refine conforms_bind (conforms_liftE env _) fun l => ?_
        refine conforms_bind (conforms_update_line env _) fun lu => ?_
        exact conforms_pure env _
      · exact conforms_pure env _

theorem conforms_wye_phase_log (env : Env) (w : PQube3pWye) :
    Trace.Conforms env (PQube3pWye.pqube_phase_log env w) := by
  unfold PQube3pWye.pqube_phase_log
  refine conforms_bind (conforms_wye_update env w) fun w1 => ?_
  refine conforms_bind (conforms_liftE env _) fun f => ?_
  refine conforms_bind ?_ fun cells1 => ?_
  · split
    · refine conforms_bind (conforms_liftE env _) fun l1 => ?_
      exact conforms_pure env _
    · exact conforms_pure env _
  · refine conforms_bind ?_ fun cells2 => ?_
    · split
      · refine conforms_bind (conforms_liftE env _) fun l2 => ?_
        exact conforms_pure env _
      · exact conforms_pure env _
    · refine conforms_bind ?_ fun cells3 => ?_
      · split
        · refine conforms_bind (conforms_liftE env _) fun l3 => ?_
          refine conforms_bind (conforms_liftE env _) fun l2 => ?_
          exact conforms_pure env _
        · exact conforms_pure env _
      · split
        · exact conforms_pure env _
        · exact conforms_pure env _

/-! Claim theorems. -/

/-- C1 fails on the code: under split single phase with only line 2
selected, against a healthy device whose every read succeeds and whose
power-configuration register reads 2, one full log cycle raises
AttributeError (the source binds values to the float self.freq and then
calls values.extend on it) instead of returning a 23-cell row. -/
theorem split1p_line2_only_raises :
    splitL2Run.res = Except.error PyErr.attributeError := rfl

/-- C2: for every pair of 16-bit register words the decoder returns the
binary32 float whose pattern is the high word followed by the low word;
at (0x4049, 0x0FDB) the pattern is 0x40490FDB, whose binary32 value is
13176795/4194304, which lies within 0.00001 of 3.14159. -/
theorem decode_bit_exact (hi lo : Nat) (hhi : hi < 2 ^ 16)
    (hlo : lo < 2 ^ 16) :
    convert_to_long (some [hi, lo]) =
      Except.ok (PyVal.f32 (hi * 2 ^ 16 + lo)) ∧
    convert_to_long (some [0x4049, 0x0FDB]) =
      Except.ok (PyVal.f32 0x40490FDB) ∧
    binary32Val 0x40490FDB = some (13176795 / 4194304 : ℚ) ∧
    (314159 / 100000 : ℚ) < 13176795 / 4194304 ∧
    (13176795 / 4194304 : ℚ) < 314160 / 100000 := by
  refine ⟨?_, rfl, ?_, by norm_num, by norm_num⟩
  · simp [convert_to_long, word_list_to_long, decode_ieee, Nat.shiftLeft_eq]
  · norm_num [binary32Val]

/-- Witness for C2 at the concrete register pair of the claim. -/
theorem decode_bit_exact_witness :
    (0x4049 : Nat) < 2 ^ 16 ∧ (0x0FDB : Nat) < 2 ^ 16 ∧
    convert_to_long (some [0x4049, 0x0FDB]) =
      Except.ok (PyVal.f32 (0x4049 * 2 ^ 16 + 0x0FDB)) :=
  ⟨by decide, by decide,
    (decode_bit_exact 0x4049 0x0FDB (by decide) (by decide)).1⟩

/-- C3 fails on the code: under three-phase wye the line 3 entity is
built with p_register_id 7204, which is REG_WATT index 0, the line 1
real-power register, not 7208 at index 2; and in the assembled row the
line 3 block takes its real_power cell (index 30) and its v_thd cell
(index 32) from the line 2 object, as the address-tagged device shows:
they decode registers 7206 and 7194, the line 2 addresses. -/
theorem wye_line3_wrong_sources :
    ((PQube3pWye.init envWye false false true).res.map fun w =>
        w.line3.map fun l => l.p_register_id) = Except.ok (some 7204) ∧
    PQube3pWye.REG_WATT.getD 0 0 = 7204 ∧
    PQube3pWye.REG_WATT.getD 2 0 = 7208 ∧
    (wyeTaggedRun.res.map fun row => row.getD 30 Cell.blank) =
      Except.ok (Cell.v (PyVal.f32 (7206 * 2 ^ 16))) ∧
    (wyeTaggedRun.res.map fun row => row.getD 32 Cell.blank) =
      Except.ok (Cell.v (PyVal.f32 (7194 * 2 ^ 16))) :=
  ⟨rfl, rfl, rfl, rfl, rfl⟩

/-- C4: for every topology, requesting a line flag that is not valid for
that topology makes construction fail with the ValueError of the flag
validation (the ConfigMismatch error of the spec), with no register read
issued, hence before the per-topology measurements object is built. -/
theorem invalid_flags_raise (cfg : PowerConfig) (env : Env) (fl : Flags)
    (h : hasInvalidFlag cfg fl = true) :
    PQube.init env cfg.configString fl.meas_line1 fl.meas_line2
        fl.meas_line3 fl.meas_line1_line2 fl.meas_line2_line3
        fl.meas_line3_line1 =
      ⟨Except.error PyErr.valueError, []⟩ := by
  cases cfg
  case splitSinglePhase =>
    simp only [hasInvalidFlag] at h
    unfold PQube.init
    simp [PowerConfig.configString, h, raise]
  case threePhaseDelta =>
    simp only [hasInvalidFlag] at h
    unfold PQube.init
    simp [PowerConfig.configString, h, raise]
  case threePhaseWye =>
    simp only [hasInvalidFlag] at h
    unfold PQube.init
    simp [PowerConfig.configString, h, raise]
  case singlePhaseL1L2 =>
    simp only [hasInvalidFlag] at h
    unfold PQube.init
    simp [PowerConfig.configString, h, raise]

/-- Witness for C4: requesting L3 under split single phase is rejected. -/
theorem invalid_flags_raise_witness :
    hasInvalidFlag PowerConfig.splitSinglePhase
        ⟨false, false, true, false, false, false⟩ = true ∧
    PQube.init envDead "split_single_phase" false false true false false
        false = ⟨Except.error PyErr.valueError, []⟩ :=
  ⟨rfl, invalid_flags_raise PowerConfig.splitSinglePhase envDead
    ⟨false, false, true, false, false, false⟩ rfl⟩

/-- C5: every per-topology constructor issues a read of diagnostic
register 8022, and when that read returns a value it fails, with the
AttributeError raise of the power-configuration check, exactly when the
value differs from the expected code of the topology: 2 for split single
phase, 4 for delta, 3 for wye, 1 for single phase L1-L2. -/
theorem diag_register_check (cfg : PowerConfig) (env : Env) (fl : Flags)
    (v : Nat) (rest : List Nat) (h : env 8022 1 = some (v :: rest)) :
    (exceptIsOk (cfg.initMeasurements env fl).res = true ↔
      v = cfg.expectedCode) ∧
    (v ≠ cfg.expectedCode →
      (cfg.initMeasurements env fl).res = Except.error PyErr.attributeError) ∧
    (8022, 1) ∈ (cfg.initMeasurements env fl).reads := by
  cases cfg
  case splitSinglePhase =>
    simp only [PowerConfig.initMeasurements, PowerConfig.expectedCode,
      PQubeSplit1p.init, PQubeSplit1p.REG_POWER_CONFIG,
      read_input_registers, h, ok_bind, error_bind, liftE, pyIndex,
      List.getElem?_cons_zero, pure_def, raise]
    by_cases hv : v = 2 <;> simp [hv, exceptIsOk, raise, ok_bind, error_bind]
  case threePhaseDelta =>
    simp only [PowerConfig.initMeasurements, PowerConfig.expectedCode,
      PQube3pDelta.init, PQube3pDelta.REG_POWER_CONFIG,
      read_input_registers, h, ok_bind, error_bind, liftE, pyIndex,
      List.getElem?_cons_zero, pure_def, raise]
    by_cases hv : v = 4 <;> simp [hv, exceptIsOk, raise, ok_bind, error_bind]
  case threePhaseWye =>
    simp only [PowerConfig.initMeasurements, PowerConfig.expectedCode,
      PQube3pWye.init, PQube3pWye.REG_POWER_CONFIG,
      read_input_registers, h, ok_bind, error_bind, liftE, pyIndex,
      List.getElem?_cons_zero, pure_def, raise]
    by_cases hv : v = 3 <;> simp [hv, exceptIsOk, raise, ok_bind, error_bind]
  case singlePhaseL1L2 =>
    simp only [PowerConfig.initMeasurements, PowerConfig.expectedCode,
      PQube1pLL.init, PQube1pLL.REG_POWER_CONFIG,
      read_input_registers, h, ok_bind, error_bind, liftE, pyIndex,
      List.getElem?_cons_zero, pure_def, raise]
    by_cases hv : v = 1 <;> simp [hv, exceptIsOk, raise, ok_bind, error_bind]

/-- Witness for C5: a wye device reporting code 3 constructs, and the
diagnostic register was read. -/
theorem diag_register_check_witness :
    envWye 8022 1 = some (3 :: []) ∧
    (exceptIsOk (PowerConfig.threePhaseWye.initMeasurements envWye
        ⟨false, false, false, false, false, false⟩).res = true ↔
      (3 : Nat) = PowerConfig.threePhaseWye.expectedCode) ∧
    ((3 : Nat) ≠ PowerConfig.threePhaseWye.expectedCode →
      (PowerConfig.threePhaseWye.initMeasurements envWye
        ⟨false, false, false, false, false, false⟩).res =
        Except.error PyErr.attributeError) ∧
    (8022, 1) ∈ (PowerConfig.threePhaseWye.initMeasurements envWye
        ⟨false, false, false, false, false, false⟩).reads :=
  ⟨rfl, diag_register_check PowerConfig.threePhaseWye envWye
    ⟨false, false, false, false, false, false⟩ 3 [] rfl⟩

/-- C6 fails on the code: under three-phase wye with only line 3 selected,
against a healthy device, the log cycle raises AttributeError (the line 3
block reads self.line2.real_power though line2 was never constructed)
instead of returning a row with blanks in the unselected columns; and the
update before the crash issues a read of register 7204, the real-power
address of unselected line 1. -/
theorem wye_line3_only_crash :
    wyeL3Run.res = Except.error PyErr.attributeError ∧
    (7204, 2) ∈ wyeL3Run.reads ∧
    PQube3pWye.REG_WATT.getD 0 0 = 7204 :=
  ⟨rfl, by decide, rfl⟩

/-- C7 fails as stated: under split single phase with the valid selection
in which no line is selected, update_measurements issues no register read
at all, so register 7026 is not read and freq stays unassigned. -/
theorem split1p_no_lines_no_freq_read :
    ((PQubeSplit1p.init envSplit false false).res.map fun s =>
        (PQubeSplit1p.update_measurements envSplit s).reads) =
      Except.ok [] ∧
    ((PQubeSplit1p.init envSplit false false).res.map fun s =>
        (PQubeSplit1p.update_measurements envSplit s).res.map
          fun s2 => s2.freq) = Except.ok (Except.ok none) :=
  ⟨rfl, rfl⟩

/-- C10: a power_config string other than the four recognised values is
rejected with ValueError before any measurements object is constructed
and before any register read is issued. -/
theorem unknown_power_config_valueError (env : Env) (cfg : String)
    (m1 m2 m3 m12 m23 m31 : Bool)
    (h1 : cfg ≠ "split_single_phase") (h2 : cfg ≠ "3p_delta")
    (h3 : cfg ≠ "3p_wye") (h4 : cfg ≠ "single_phase_l1_l2") :
    PQube.init env cfg m1 m2 m3 m12 m23 m31 =
      ⟨Except.error PyErr.valueError, []⟩ := by
  unfold PQube.init
  rw [if_neg h1, if_neg h2, if_neg h3, if_neg h4]
  rfl

/-- Witness for C10 at a concrete unknown configuration string. -/
theorem unknown_power_config_valueError_witness :
    ("bogus" : String) ≠ "split_single_phase" ∧
    ("bogus" : String) ≠ "3p_delta" ∧
    ("bogus" : String) ≠ "3p_wye" ∧
    ("bogus" : String) ≠ "single_phase_l1_l2" ∧
    PQube.init envDead "bogus" false false false false false false =
      ⟨Except.error PyErr.valueError, []⟩ :=
  ⟨by decide, by decide, by decide, by decide,
    unknown_power_config_valueError envDead "bogus" false false false
      false false false (by decide) (by decide) (by decide) (by decide)⟩

/-- C7 amended: under three-phase wye every call to update_measurements
issues the (7026, 2) frequency read and, on success, stores its decoded
value in freq; under split single phase the same holds whenever at least
one line is selected, while with no line selected update_measurements
reads nothing (see the counterexample theorem). -/
theorem freq_read_and_stored (env : Env) (s : PQubeSplit1p)
    (w : PQube3pWye) (v : PyVal)
    (hv : convert_to_long (env 7026 2) = Except.ok v) :
    ((s.meas_line1 = true ∨ s.meas_line2 = true) →
      (7026, 2) ∈ (PQubeSplit1p.update_measurements env s).reads ∧
      ∀ s2, (PQubeSplit1p.update_measurements env s).res = Except.ok s2 →
        s2.freq = some v) ∧
    ((7026, 2) ∈ (PQube3pWye.update_measurements env w).reads ∧
      ∀ w2, (PQube3pWye.update_measurements env w).res = Except.ok w2 →
        w2.freq = some v) := by
  have hsfreq : (PQubeSplit1p.meas_freq env).res = Except.ok v := by
    rw [show (PQubeSplit1p.meas_freq env).res = convert_to_long (env 7026 2)
      from rfl, hv]
  have hwfreq : (PQube3pWye.meas_freq env).res = Except.ok v := by
    rw [show (PQube3pWye.meas_freq env).res = convert_to_long (env 7026 2)
      from rfl, hv]
  constructor
  · intro hm
    constructor
    · cases hm1 : s.meas_line1 with
      | true =>
        simp [PQubeSplit1p.update_measurements, hm1, reads_bind,
          PQubeSplit1p.meas_freq, PQubeSplit1p.REG_FREQ, convertRead,
          read_input_registers, liftE, pure_def]
      | false =>
        have hm2 : s.meas_line2 = true := by
          rcases hm with h | h
          · rw [hm1] at h; exact absurd h (by simp)
          · exact h
        simp [PQubeSplit1p.update_measurements, hm1, hm2, reads_bind,
          PQubeSplit1p.meas_freq, PQubeSplit1p.REG_FREQ, convertRead,
          read_input_registers, liftE, pure_def]
    · intro s2 hres
      cases hm1 : s.meas_line1 with
      | true =>
        rw [PQubeSplit1p.update_measurements, if_pos hm1] at hres
        obtain ⟨s1, hB1, hK⟩ := bind_res_ok hres
        obtain ⟨fv, hfv, hrest⟩ := bind_res_ok hB1
        rw [hsfreq] at hfv
        obtain rfl := Except.ok.inj hfv
        obtain ⟨l1, hl1, hrest2⟩ := bind_res_ok hrest
        obtain ⟨l1u, hl1u, hpure⟩ := bind_res_ok hrest2
        obtain rfl := Except.ok.inj hpure
        cases hm2 : s.meas_line2 with
        | true =>
          simp only [hm2, if_true] at hK
          obtain ⟨fv2, hfv2, hrest3⟩ := bind_res_ok hK
          rw [hsfreq] at hfv2
          obtain rfl := Except.ok.inj hfv2
          obtain ⟨l2, hl2, hrest4⟩ := bind_res_ok hrest3
          obtain ⟨l2u, hl2u, hpure2⟩ := bind_res_ok hrest4
          obtain rfl := Except.ok.inj hpure2
          rfl
        | false =>
          simp only [hm2] at hK
          obtain rfl := Except.ok.inj hK
          rfl
      | false =>
        have hm2 : s.meas_line2 = true := by
          rcases hm with h | h
          · rw [hm1] at h; exact absurd h (by simp)
          · exact h
        rw [PQubeSplit1p.update_measurements,
          if_neg (by simp [hm1])] at hres
        rw [pure_def, ok_bind] at hres
        simp only [hm2, if_true] at hres
        obtain ⟨fv, hfv, hrest⟩ := bind_res_ok hres
        rw [hsfreq] at hfv
        obtain rfl := Except.ok.inj hfv
        obtain ⟨l2, hl2, hrest2⟩ := bind_res_ok hrest
        obtain ⟨l2u, hl2u, hpure⟩ := bind_res_ok hrest2
        obtain rfl := Except.ok.inj hpure
        rfl
  · constructor
    · simp [PQube3pWye.update_measurements, reads_bind,
        PQube3pWye.meas_freq, PQube3pWye.REG_FREQ, convertRead,
        read_input_registers, liftE]
    · intro w2 hres
      unfold PQube3pWye.update_measurements at hres
      obtain ⟨fv, hfv, hrest⟩ := bind_res_ok hres
      rw [hwfreq] at hfv
      obtain rfl := Except.ok.inj hfv
      obtain ⟨wa, hifa, hK⟩ := bind_res_ok hrest
      have hfa : wa.freq = some v := by
        split at hifa
        · obtain ⟨l, hl, h2⟩ := bind_res_ok hifa
          obtain ⟨lu, hlu, hp⟩ := bind_res_ok h2
          obtain rfl := Except.ok.inj hp
          rfl
        · obtain rfl := Except.ok.inj hifa
          rfl
      obtain ⟨wb, hifb, hK2⟩ := bind_res_ok hK
      have hfb : wb.freq = wa.freq := by
        split at hifb
        · obtain ⟨l, hl, h2⟩ := bind_res_ok hifb
          obtain ⟨lu, hlu, hp⟩ := bind_res_ok h2
          obtain rfl := Except.ok.inj hp
          rfl
        · obtain rfl := Except.ok.inj hifb
          rfl
      have hfc : w2.freq = wb.freq := by
        split at hK2
        · obtain ⟨l, hl, h2⟩ := bind_res_ok hK2
          obtain ⟨lu, hlu, hp⟩ := bind_res_ok h2
          obtain rfl := Except.ok.inj hp
          rfl
        · obtain rfl := Except.ok.inj hK2
          rfl
      rw [hfc, hfb, hfa]

/-- Witness for C7 amended, at the healthy split-phase device whose
frequency registers read zero. -/
theorem freq_read_and_stored_witness :
    convert_to_long (envSplit 7026 2) = Except.ok (PyVal.f32 0) ∧
    (((⟨true, false, none, none, none⟩ : PQubeSplit1p).meas_line1 = true ∨
        (⟨true, false, none, none, none⟩ : PQubeSplit1p).meas_line2 = true) →
      (7026, 2) ∈ (PQubeSplit1p.update_measurements envSplit
        ⟨true, false, none, none, none⟩).reads ∧
      ∀ s2, (PQubeSplit1p.update_measurements envSplit
          ⟨true, false, none, none, none⟩).res = Except.ok s2 →
        s2.freq = some (PyVal.f32 0)) ∧
    ((7026, 2) ∈ (PQube3pWye.update_measurements envSplit
        ⟨false, false, false, none, none, none, none⟩).reads ∧
      ∀ w2, (PQube3pWye.update_measurements envSplit
          ⟨false, false, false, none, none, none, none⟩).res =
            Except.ok w2 →
        w2.freq = some (PyVal.f32 0)) :=
  ⟨rfl, (freq_read_and_stored envSplit ⟨true, false, none, none, none⟩
      ⟨false, false, false, none, none, none, none⟩ (PyVal.f32 0) rfl).1,
    (freq_read_and_stored envSplit ⟨true, false, none, none, none⟩
      ⟨false, false, false, none, none, none, none⟩ (PyVal.f32 0) rfl).2⟩

/-- C8: a failed read (None) or a short read makes convert_to_long fail
with an error rather than produce a value; and for every topology a row
is only returned when every register read the log cycle issued returned
at least two registers, so no returned row carries a cell whose read
faulted. -/
theorem read_fault_fails (l : List Nat) (hl : l.length < 2) :
    convert_to_long none = Except.error PyErr.typeError ∧
    (∃ e, convert_to_long (some l) = Except.error e) ∧
    (∀ (env : Env) (s : PQubeSplit1p) (row : List Cell),
      (PQubeSplit1p.pqube_phase_log env s).res = Except.ok row →
      ∀ p ∈ (PQubeSplit1p.pqube_phase_log env s).reads, GoodRead env p) ∧
    (∀ (env : Env) (d : PQube3pDelta) (row : List Cell),
      (PQube3pDelta.pqube_phase_log env d).res = Except.ok row →
      ∀ p ∈ (PQube3pDelta.pqube_phase_log env d).reads, GoodRead env p) ∧
    (∀ (env : Env) (q : PQube1pLL) (row : List Cell),
      (PQube1pLL.pqube_phase_log env q).res = Except.ok row →
      ∀ p ∈ (PQube1pLL.pqube_phase_log env q).reads, GoodRead env p) ∧
    (∀ (env : Env) (w : PQube3pWye) (row : List Cell),
      (PQube3pWye.pqube_phase_log env w).res = Except.ok row →
      ∀ p ∈ (PQube3pWye.pqube_phase_log env w).reads, GoodRead env p) := by
  refine ⟨rfl, ?_, ?_, ?_, ?_, ?_⟩
  · cases l with
    | nil => exact ⟨PyErr.indexError, rfl⟩
    | cons x t =>
      cases t with
      | nil => exact ⟨PyErr.indexError, rfl⟩
      | cons y t2 =>
        simp only [List.length_cons] at hl
        omega
  · exact fun env s row h => conforms_split_phase_log env s ⟨row, h⟩
  · exact fun env d row h => conforms_delta_phase_log env d ⟨row, h⟩
  · exact fun env q row h => conforms_onep_phase_log env q ⟨row, h⟩
  · exact fun env w row h => conforms_wye_phase_log env w ⟨row, h⟩

/-- Witness for C8 at a concrete short read. -/
theorem read_fault_fails_witness :
    ([5] : List Nat).length < 2 ∧
    convert_to_long none = Except.error PyErr.typeError ∧
    (∃ e, convert_to_long (some [5]) = Except.error e) :=
  ⟨by decide, (read_fault_fails [5] (by decide)).1,
    (read_fault_fails [5] (by decide)).2.1⟩

/-- C9: under split single phase with line 1 selected and line 2 not,
when the diagnostic register reads 2 and every read of the frequency
register and of the eleven line 1 registers returns a full register pair,
one log cycle returns exactly 23 cells: the decoded frequency, then the
eleven line 1 quantities in order v_rms, v_mag_fundamental,
v_angle_fundamental, i_rms, i_mag_fundamental, i_angle_fundamental,
apparent_power, real_power, reactive_power, v_thd, i_tdd, then eleven
blanks. -/
theorem split1p_line1_only_row (env : Env)
    (f1 f2 x1 y1 x2 y2 x3 y3 x4 y4 x5 y5 x6 y6 x7 y7 x8 y8 x9 y9 x10 y10
      x11 y11 : Nat)
    (h0 : env 8022 1 = some [2])
    (hf : env 7026 2 = some [f1, f2])
    (h1 : env 7008 2 = some [x1, y1])
    (h2 : env 7098 2 = some [x2, y2])
    (h3 : env 7100 2 = some [x3, y3])
    (h4 : env 7028 2 = some [x4, y4])
    (h5 : env 7110 2 = some [x5, y5])
    (h6 : env 7112 2 = some [x6, y6])
    (h7 : env 7210 2 = some [x7, y7])
    (h8 : env 7204 2 = some [x8, y8])
    (h9 : env 7216 2 = some [x9, y9])
    (h10 : env 7192 2 = some [x10, y10])
    (h11 : env 7198 2 = some [x11, y11]) :
    (PQube.init env "split_single_phase" true false false false false
        false >>= fun p => PQube.pqube_log env p).res =
      Except.ok
        (Cell.v (PyVal.f32 ((f1 <<< 16) + f2)) ::
          ([Cell.v (PyVal.f32 ((x1 <<< 16) + y1)),
            Cell.v (PyVal.f32 ((x2 <<< 16) + y2)),
            Cell.v (PyVal.f32 ((x3 <<< 16) + y3)),
            Cell.v (PyVal.f32 ((x4 <<< 16) + y4)),
            Cell.v (PyVal.f32 ((x5 <<< 16) + y5)),
            Cell.v (PyVal.f32 ((x6 <<< 16) + y6)),
            Cell.v (PyVal.f32 ((x7 <<< 16) + y7)),
            Cell.v (PyVal.f32 ((x8 <<< 16) + y8)),
            Cell.v (PyVal.f32 ((x9 <<< 16) + y9)),
            Cell.v (PyVal.f32 ((x10 <<< 16) + y10)),
            Cell.v (PyVal.f32 ((x11 <<< 16) + y11))] ++
            List.replicate 11 Cell.blank)) ∧
    (Cell.v (PyVal.f32 ((f1 <<< 16) + f2)) ::
        ([Cell.v (PyVal.f32 ((x1 <<< 16) + y1)),
          Cell.v (PyVal.f32 ((x2 <<< 16) + y2)),
          Cell.v (PyVal.f32 ((x3 <<< 16) + y3)),
          Cell.v (PyVal.f32 ((x4 <<< 16) + y4)),
          Cell.v (PyVal.f32 ((x5 <<< 16) + y5)),
          Cell.v (PyVal.f32 ((x6 <<< 16) + y6)),
          Cell.v (PyVal.f32 ((x7 <<< 16) + y7)),
          Cell.v (PyVal.f32 ((x8 <<< 16) + y8)),
          Cell.v (PyVal.f32 ((x9 <<< 16) + y9)),
          Cell.v (PyVal.f32 ((x10 <<< 16) + y10)),
          Cell.v (PyVal.f32 ((x11 <<< 16) + y11))] ++
          List.replicate 11 Cell.blank)).length = 23 := by
  constructor
  · simp [PQube.init, PQube.pqube_log, Measurements.phase_log,
      PQubeSplit1p.init, PQubeSplit1p.update_measurements,
      PQubeSplit1p.pqube_phase_log, PQubeSplit1p.meas_freq,
      PQubeSplit1p.REG_POWER_CONFIG, PQubeSplit1p.REG_FREQ,
      PQubeSplit1p.REG_V_RMS_L1, PQubeSplit1p.REG_V_MAG_FUNDAMENTAL_L1,
      PQubeSplit1p.REG_V_ANGLE_FUNDAMENTAL_L1, PQubeSplit1p.REG_I_RMS_L1,
      PQubeSplit1p.REG_I_MAG_FUNDAMENTAL_L1,
      PQubeSplit1p.REG_I_ANGLE_FUNDAMENTAL_L1, PQubeSplit1p.REG_VA_L1,
      PQubeSplit1p.REG_WATT_L1, PQubeSplit1p.REG_VAR_FUNDAMENTAL_L1,
      PQubeSplit1p.REG_V_THD_L1, PQubeSplit1p.REG_I_TDD_L1,
      LinePQube.init, LinePQube.update_line_measurements, lineCells,
      convertRead, read_input_registers, convert_to_long,
      word_list_to_long, decode_ieee, pyIndex, liftE, raise, pure_def,
      ok_bind, error_bind, getAttr,
      h0, hf, h1, h2, h3, h4, h5, h6, h7, h8, h9, h10, h11]
  · simp

/-- Witness for C9 at the healthy zero-reading split-phase device. -/
theorem split1p_line1_only_row_witness :
    envSplit 8022 1 = some [2] ∧
    envSplit 7026 2 = some [0, 0] ∧
    envSplit 7008 2 = some [0, 0] ∧
    (PQube.init envSplit "split_single_phase" true false false false false
        false >>= fun p => PQube.pqube_log envSplit p).res =
      Except.ok
        (Cell.v (PyVal.f32 0) ::
          ([Cell.v (PyVal.f32 0), Cell.v (PyVal.f32 0),
            Cell.v (PyVal.f32 0), Cell.v (PyVal.f32 0),
            Cell.v (PyVal.f32 0), Cell.v (PyVal.f32 0),
            Cell.v (PyVal.f32 0), Cell.v (PyVal.f32 0),
            Cell.v (PyVal.f32 0), Cell.v (PyVal.f32 0),
            Cell.v (PyVal.f32 0)] ++ List.replicate 11 Cell.blank)) :=
  ⟨rfl, rfl, rfl,
    (split1p_line1_only_row envSplit 0 0 0 0 0 0 0 0 0 0 0 0 0 0 0 0 0 0
      0 0 0 0 0 0 rfl rfl rfl rfl rfl rfl rfl rfl rfl rfl rfl rfl
      rfl).1⟩

end PQubeModel
